import Mathlib

/-!
Shallow embedding of the task API core of this repository:
the request-validation predicates, the create operation, the
single-task and list read operations, and the update operation with its
status state machine, taken from src/routes/tareas.js, together with the
field list of the mongoose schema in src/models/tarea.js.

The persistence collaborator (the module logic/tareas.js required by the
router) is not part of the sources; following the spec it is modelled as
an opaque keyed store: getOne returns the stored record with its id
attached and fails when the id does not resolve, update overwrites the
stored record, and either call may fail with a persistence error, which
we model with explicit failure flags.
-/

/-- A JavaScript runtime value, as far as the validation code inspects one:
undefined, null, a boolean, a number (integral values suffice for the
inputs considered here) or a string. -/
inductive JSValue where
  | undef
  | null
  | bool (b : Bool)
  | num (n : Int)
  | str (s : String)
deriving DecidableEq

/-- JavaScript truthiness of a value: undefined, null, false, 0 and the
empty string are falsy, everything else is truthy. -/
def truthy : JSValue → Bool
  | .undef => false
  | .null => false
  | .bool b => b
  | .num n => n != 0
  | .str s => s != ""

/-- The check `v instanceof String || typeof v === "string"` used by the
validation code. -/
def isStringV : JSValue → Bool
  | .str _ => true
  | _ => false

/-- Splitting a character list at every semicolon, the semicolons
dropped; the JavaScript `split(";")` on strings. -/
def splitOnSemicolon : List Char → List (List Char)
  | [] => [[]]
  | c :: cs =>
    let rest := splitOnSemicolon cs
    if c = ';' then [] :: rest
    else
      match rest with
      | [] => [[c]]
      | s :: ss => (c :: s) :: ss

/-- Removing leading and trailing whitespace; the JavaScript `trim()`. -/
def trimChars (cs : List Char) : List Char :=
  ((cs.dropWhile Char.isWhitespace).reverse.dropWhile Char.isWhitespace).reverse

/-- `header.split(";").map(h => h.trim())` from the two header validators. -/
def splitSegs (s : String) : List String :=
  (splitOnSemicolon s.data).map (fun cs => String.mk (trimChars cs))

/-- Embedding of `validAcceptHeader` (src/routes/tareas.js, lines 65-80):
return true when the value is falsy but not the empty string; return
false when it is not a string; otherwise split on `;`, trim, and accept
when the segments contain `application/json` or `*/*`. -/
def validAcceptHeader (acceptHeader : JSValue) : Bool :=
  if ¬ truthy acceptHeader ∧ acceptHeader ≠ .str "" then
    true
  else if ¬ isStringV acceptHeader then
    false
  else
    match acceptHeader with
    | .str s => (splitSegs s).contains "application/json" || (splitSegs s).contains "*/*"
    | _ => false

/-- Embedding of `validContentTypeHeader` (src/routes/tareas.js, lines
90-110): falsy values and non-strings are invalid; otherwise split on
`;`, trim, and accept when the segments contain `application/json`. -/
def validContentTypeHeader (contentTypeHeader : JSValue) : Bool :=
  if ¬ truthy contentTypeHeader then
    false
  else if ¬ isStringV contentTypeHeader then
    false
  else
    match contentTypeHeader with
    | .str s => (splitSegs s).contains "application/json"
    | _ => false

/-- A task record as the route code manipulates it: the distinguished
fields it reads or writes (`id`, `status`, `description`, `date`) plus
the remaining attributes, which the core copies through verbatim. -/
structure TaskRecord where
  id : Option String
  status : JSValue
  description : JSValue
  date : Int
  rest : List (String × JSValue)
deriving DecidableEq

/-- The state of the persistence collaborator relevant to one request:
the record stored under the addressed id (none when the id does not
resolve) and flags injecting a failure into the update write and into
the re-read that follows it. -/
structure Collab where
  stored : Option TaskRecord
  updateFails : Bool
  rereadFails : Bool
deriving DecidableEq

/-- Field names declared by `tareaSchema` in src/models/tarea.js,
lines 4-16, in source order. The schema declares no default values. -/
def tareaSchemaFields : List String :=
  ["id", "tipo", "ciudad", "nombre_marca", "description", "precio",
   "contacto", "longitud", "latitud", "galeria", "date"]

/-- The parsed JSON body of a create request: the fields `crearTarea`
reads, each possibly absent (undefined). A `status` field is carried to
record that `crearTarea` never reads it. -/
structure CreateBody where
  description : JSValue
  status : JSValue
  tipo : JSValue
  ciudad : JSValue
  nombre_marca : JSValue
  precio : JSValue
  contacto : JSValue
  longitud : JSValue
  latitud : JSValue
  galeria : JSValue
deriving DecidableEq

/-- The record `modeloACrear` built by `crearTarea` (src/routes/tareas.js,
lines 173-184), as the association list of exactly the fields the source
writes, in source order. No `status` field is written. -/
def modeloACrear (body : CreateBody) (now : Int) : List (String × JSValue) :=
  [("tipo", body.tipo),
   ("ciudad", body.ciudad),
   ("nombre_marca", body.nombre_marca),
   ("description", body.description),
   ("precio", body.precio),
   ("contacto", body.contacto),
   ("longitud", body.longitud),
   ("latitud", body.latitud),
   ("galeria", body.galeria),
   ("date", .num now)]

/-- Outcome of a create request. `referenceError` is the branch at
src/routes/tareas.js line 167: the rejection message for a non-string
`description` interpolates the identifier `description`, which is not
bound anywhere in `crearTarea` (the function only ever reads
`jsonBody.description`), so evaluating that template literal raises a
ReferenceError before any response is sent. -/
inductive CreateResult where
  | invalidContentType
  | referenceError
  | created (record : List (String × JSValue))
deriving DecidableEq

/-- Embedding of `crearTarea` (src/routes/tareas.js, lines 142-189):
reject a bad Content-Type; then, when `description` is truthy and not a
string, enter the invalid-attribute branch, which faults with a
ReferenceError while building its message; otherwise hand `modeloACrear`
to the collaborator. -/
def crearTarea (contentType : JSValue) (body : CreateBody) (now : Int) : CreateResult :=
  if ¬ validContentTypeHeader contentType then
    .invalidContentType
  else if truthy body.description ∧ ¬ isStringV body.description then
    .referenceError
  else
    .created (modeloACrear body now)

/-- Outcome of a single-task read. The `mediaNotSupported` constructor is
the rejection the list endpoint produces for a bad Accept header; the
single-task read never produces it. -/
inductive GetResult where
  | mediaNotSupported
  | resourceNotFound
  | ok (t : TaskRecord)
deriving DecidableEq

/-- Embedding of `obtenerTarea` (src/routes/tareas.js, lines 197-211):
fetch by id and return the record (getOne attaches the id); a failed
fetch is rendered as not-found. The function never reads the Accept
header; the parameter records that fact. -/
def obtenerTarea (accept : JSValue) (stored : Option TaskRecord)
    (idTarea : String) : GetResult :=
  match stored with
  | none => .resourceNotFound
  | some t => .ok { t with id := some idTarea }

/-- Outcome of a list read. -/
inductive ListResult where
  | mediaNotSupported
  | ok (ts : List TaskRecord)
deriving DecidableEq

/-- Embedding of `obtenerTareas` (src/routes/tareas.js, lines 118-133):
reject a bad Accept header, otherwise return all records. -/
def obtenerTareas (accept : JSValue) (all : List TaskRecord) : ListResult :=
  if ¬ validAcceptHeader accept then .mediaNotSupported else .ok all

/-- The early returns of the status block of `actualizarTarea`
(src/routes/tareas.js, lines 276-320). -/
inductive StatusErr where
  | invalidStatusValue
  | pendienteOnlyTerminal
  | illegalTransition
deriving DecidableEq

/-- The three status strings accepted by `actualizarTarea` at line 280. -/
def validStatuses : List JSValue :=
  [.str "PENDIENTE", .str "TERMINADO", .str "CANCELADO"]

/-- Embedding of the status block of `actualizarTarea`
(src/routes/tareas.js, lines 276-322). When the requested status is
truthy: reject a value outside the three accepted strings; when it
differs from the current status, reject a transition out of PENDIENTE to
anything but TERMINADO or CANCELADO, and reject the two transitions
between the terminal states; otherwise assign the requested status. A
falsy requested status leaves the record untouched. -/
def statusStep (t : TaskRecord) (status : JSValue) : Except StatusErr TaskRecord :=
  if truthy status then
    let oldStatus := t.status
    if ¬ validStatuses.contains status then
      .error .invalidStatusValue
    else if status ≠ oldStatus ∧ oldStatus = .str "PENDIENTE" ∧
        status ≠ .str "TERMINADO" ∧ status ≠ .str "CANCELADO" then
      .error .pendienteOnlyTerminal
    else if status ≠ oldStatus ∧
        ((oldStatus = .str "TERMINADO" ∧ status = .str "CANCELADO") ∨
         (oldStatus = .str "CANCELADO" ∧ status = .str "TERMINADO")) then
      .error .illegalTransition
    else
      .ok { t with status := status }
  else
    .ok t

/-- Outcome of an update request, one constructor per response the source
can send. -/
inductive UpdateOutcome where
  | invalidContentType
  | mediaNotSupported
  | invalidAttribute
  | resourceNotFound
  | invalidStatusValue
  | pendienteOnlyTerminal
  | illegalTransition
  | persistenceFailure
  | success (t : TaskRecord)
deriving DecidableEq

/-- Rendering of a status-block early return as a response. -/
def StatusErr.toOutcome : StatusErr → UpdateOutcome
  | .invalidStatusValue => .invalidStatusValue
  | .pendienteOnlyTerminal => .pendienteOnlyTerminal
  | .illegalTransition => .illegalTransition

/-- Result of an update request: the response, the record stored under
the addressed id afterwards, and whether the collaborator update
operation was invoked. -/
structure UpdateResult where
  outcome : UpdateOutcome
  stored : Option TaskRecord
  updateCalled : Bool
deriving DecidableEq

/-- An update request: the two headers, the `description` and `status`
fields of the parsed body (undefined when absent), and the path
parameter. -/
structure UpdateRequest where
  contentType : JSValue
  accept : JSValue
  bodyDescription : JSValue
  bodyStatus : JSValue
  idTarea : String
deriving DecidableEq

/-- Embedding of `actualizarTarea` (src/routes/tareas.js, lines 213-346):
validate the Content-Type, then the Accept header, then reject a truthy
non-string `description`; fetch the task (not-found short-circuits) and
drop the id field getOne attached; run the status block; apply a truthy
`description`; stamp the date; then write through the collaborator and
re-read, rendering a failure of either call as a persistence failure.
The source catches the two calls in one try block with no rollback, so a
write that succeeded stays persisted when only the re-read fails. -/
def actualizarTarea (req : UpdateRequest) (c : Collab) (now : Int) : UpdateResult :=
  if ¬ validContentTypeHeader req.contentType then
    ⟨.invalidContentType, c.stored, false⟩
  else if ¬ validAcceptHeader req.accept then
    ⟨.mediaNotSupported, c.stored, false⟩
  else if truthy req.bodyDescription ∧ ¬ isStringV req.bodyDescription then
    ⟨.invalidAttribute, c.stored, false⟩
  else
    match c.stored with
    | none => ⟨.resourceNotFound, c.stored, false⟩
    | some t0 =>
      match statusStep { t0 with id := none } req.bodyStatus with
      | .error e => ⟨e.toOutcome, c.stored, false⟩
      | .ok t1 =>
        let t2 := if truthy req.bodyDescription then
            { t1 with description := req.bodyDescription } else t1
        let t3 := { t2 with date := now }
        if c.updateFails then
          ⟨.persistenceFailure, c.stored, true⟩
        else if c.rereadFails then
          ⟨.persistenceFailure, some t3, true⟩
        else
          ⟨.success { t3 with id := some req.idTarea }, some t3, true⟩


/-- The mutated record the update hands to the collaborator write: the
status-step result with a truthy `description` applied and the date
stamped to the request time. -/
def mutRecord (req : UpdateRequest) (t1 : TaskRecord) (now : Int) : TaskRecord :=
  { (if truthy req.bodyDescription then
      { t1 with description := req.bodyDescription } else t1) with date := now }

/-- The Accept acceptability predicate as the amended claim C5 states it:
a falsy value other than the empty string is accepted (this covers an
absent header and also falsy non-string values), and a string is
accepted exactly when `application/json` or `*/*` occurs among its
`;`-separated trimmed segments, in any position; everything else is
rejected. -/
def acceptHeaderAmended (v : JSValue) : Bool :=
  (!truthy v && v != .str "") ||
  (match v with
   | .str s => (splitSegs s).contains "application/json" || (splitSegs s).contains "*/*"
   | _ => false)

/-- Opaque attributes used by the concrete fixtures. -/
def sampleRest : List (String × JSValue) :=
  [("tipo", .str "casa"), ("precio", .num 5)]

/-- A stored task whose status is TERMINADO. -/
def sampleTerminado : TaskRecord :=
  ⟨some "7", .str "TERMINADO", .str "old", 1, sampleRest⟩

/-- A stored task whose status is PENDIENTE. -/
def samplePendiente : TaskRecord :=
  ⟨some "3", .str "PENDIENTE", .str "old", 1, sampleRest⟩

/-- A create body with a valid description and no status field. -/
def sampleCreateBody : CreateBody :=
  ⟨.str "buy milk", .undef, .str "casa", .str "Lima", .undef, .num 100,
   .undef, .undef, .undef, .undef⟩

/-- A create body whose description is the number 123. -/
def createBodyNumDesc : CreateBody :=
  ⟨.num 123, .undef, .undef, .undef, .undef, .undef, .undef, .undef, .undef, .undef⟩


/-! ### Helper lemmas -/

/-- A successful status step either leaves the record unchanged or only
replaces its status with the requested value. -/
theorem statusStep_ok_cases (t t1 : TaskRecord) (s : JSValue)
    (h : statusStep t s = .ok t1) :
    t1 = t ∨ t1 = { t with status := s } := by
  simp only [statusStep] at h
  split_ifs at h
  all_goals simp only [Except.ok.injEq] at h
  · exact Or.inr h.symm
  · exact Or.inl h.symm

/-- A status-step early return is never rendered as a success outcome. -/
theorem statusErr_toOutcome_ne_success (e : StatusErr) (r : TaskRecord) :
    e.toOutcome ≠ .success r := by
  cases e <;> simp [StatusErr.toOutcome]

/-- After an update request the record stored under the addressed id is
either exactly what it was before, or the mutated record written on the
path where the status step succeeded and the collaborator write ran. -/
theorem actualizarTarea_stored_cases (req : UpdateRequest) (c : Collab) (now : Int) :
    (actualizarTarea req c now).stored = c.stored ∨
    ∃ t0 t1, c.stored = some t0 ∧
      statusStep { t0 with id := none } req.bodyStatus = .ok t1 ∧
      (actualizarTarea req c now).stored = some (mutRecord req t1 now) := by
  unfold actualizarTarea
  by_cases h1 : validContentTypeHeader req.contentType = true
  case neg => simp [h1]
  by_cases h2 : validAcceptHeader req.accept = true
  case neg => simp [h1, h2]
  by_cases h3 : truthy req.bodyDescription = true ∧ ¬ isStringV req.bodyDescription = true
  case pos => simp [h1, h2, h3]
  have h3F : ¬(truthy req.bodyDescription = true ∧ isStringV req.bodyDescription = false) := by
    simpa using h3
  cases hcs : c.stored with
  | none => simp [h1, h2, h3F]
  | some t0 =>
    cases hm : statusStep { t0 with id := none } req.bodyStatus with
    | error e => simp [h1, h2, h3F, hm]
    | ok t1 =>
      by_cases hu : c.updateFails = true
      case pos => simp [h1, h2, h3F, hm, hu]
      by_cases hr : c.rereadFails = true
      case pos =>
        refine Or.inr ⟨t0, t1, rfl, hm, ?_⟩
        simp [h1, h2, h3F, hm, hu, hr, mutRecord]
      refine Or.inr ⟨t0, t1, rfl, hm, ?_⟩
      simp [h1, h2, h3F, hm, hu, hr, mutRecord]

/-- Characterization of a successful update: the validations passed, the
task existed, the status step succeeded, neither persistence call
failed, and the response and the store carry the mutated record, the
response copy with the addressed id reattached by the re-read. -/
theorem actualizarTarea_success_cases (req : UpdateRequest) (c : Collab) (now : Int)
    (r : TaskRecord) (h : (actualizarTarea req c now).outcome = .success r) :
    ∃ t0 t1, c.stored = some t0 ∧
      statusStep { t0 with id := none } req.bodyStatus = .ok t1 ∧
      r = { mutRecord req t1 now with id := some req.idTarea } ∧
      actualizarTarea req c now = ⟨.success r, some (mutRecord req t1 now), true⟩ := by
  unfold actualizarTarea at h ⊢
  by_cases h1 : validContentTypeHeader req.contentType = true
  case neg => simp [h1] at h
  by_cases h2 : validAcceptHeader req.accept = true
  case neg => simp [h1, h2] at h
  by_cases h3 : truthy req.bodyDescription = true ∧ ¬ isStringV req.bodyDescription = true
  case pos => simp [h1, h2, h3] at h
  have h3F : ¬(truthy req.bodyDescription = true ∧ isStringV req.bodyDescription = false) := by
    simpa using h3
  cases hcs : c.stored with
  | none =>
    rw [hcs] at h
    simp [h1, h2, h3F] at h
  | some t0 =>
    rw [hcs] at h
    cases hm : statusStep { t0 with id := none } req.bodyStatus with
    | error e =>
      simp [h1, h2, h3F, hm] at h
      cases e <;> simp [StatusErr.toOutcome] at h
    | ok t1 =>
      by_cases hu : c.updateFails = true
      case pos => simp [h1, h2, h3F, hm, hu] at h
      by_cases hr : c.rereadFails = true
      case pos => simp [h1, h2, h3F, hm, hu, hr] at h
      simp [h1, h2, h3F, hm, hu, hr] at h
      refine ⟨t0, t1, rfl, hm, ?_, ?_⟩ <;>
        simp [h1, h2, h3F, hm, hu, hr, mutRecord, h]

/-! ### C5: the Accept-header predicate -/

/-- C5 counterexample: the claim says the predicate accepts exactly an
absent header, `*/*`, or `application/json` followed only by parameters,
and rejects every non-string value; but `validAcceptHeader` accepts
`text/html;application/json` (the segment may occur in any position) and
accepts the non-string value 0 (any falsy non-string passes the absence
test). -/
theorem c5_claim_counterexample :
    validAcceptHeader (.str "text/html;application/json") = true ∧
    validAcceptHeader (.num 0) = true := by decide

/-- C5 (amended): the predicate accepts exactly the falsy values other
than the empty string and the strings among whose `;`-separated trimmed
segments `application/json` or `*/*` occurs, in any position; in
particular `application/json;charset=utf-8` is accepted, `text/html` is
rejected, and an absent header is accepted. -/
theorem c5_accept_header_amended :
    (∀ v, validAcceptHeader v = acceptHeaderAmended v) ∧
    validAcceptHeader (.str "application/json;charset=utf-8") = true ∧
    validAcceptHeader (.str "text/html") = false ∧
    validAcceptHeader .undef = true := by
  refine ⟨fun v => ?_, by decide, by decide, by decide⟩
  cases v with
  | undef => decide
  | null => decide
  | bool b => cases b <;> decide
  | num n =>
    by_cases hn : n = 0 <;>
      simp [validAcceptHeader, acceptHeaderAmended, truthy, isStringV, hn]
  | str s =>
    by_cases hs : s = ""
    · subst hs; decide
    · simp [validAcceptHeader, acceptHeaderAmended, truthy, isStringV, hs]

/-! ### C9: the Accept-header check and the single-task read -/

/-- C9 counterexample: the claim says a GET of a single task carrying an
unacceptable Accept header is rejected with MediaNotSupported; but
`obtenerTarea` performs no Accept check at all and returns the task even
for `text/html`, which the predicate rejects. -/
theorem c9_claim_counterexample :
    obtenerTarea (.str "text/html") (some samplePendiente) "3" =
      .ok { samplePendiente with id := some "3" } ∧
    validAcceptHeader (.str "text/html") = false := by decide

/-- C9 (amended): the Accept-header check does not apply to the
single-task read: `obtenerTarea` ignores the Accept header entirely,
returning the same result whatever its value; the list read endpoint
does reject `text/html` with MediaNotSupported. -/
theorem c9_accept_ignored_on_single_read :
    (∀ a st idT, obtenerTarea a st idT = obtenerTarea .undef st idT) ∧
    (∀ ts, obtenerTareas (.str "text/html") ts = .mediaNotSupported) := by
  constructor
  · intro a st idT
    cases st <;> rfl
  · intro ts
    rfl

/-! ### C2: status of a freshly created task -/

/-- C2 (code bug): the claim, following the spec, says a create request
with no `status` field yields a task whose status is PENDIENTE, the
default being the responsibility of the persistence collaborator; but
the record `crearTarea` hands to the collaborator never contains a
`status` field, and the mongoose schema declares no `status` field (and
so no default for it) either, so no created task ever receives status
PENDIENTE. -/
theorem c2_create_status_missing_bug :
    (∀ body now, (modeloACrear body now).lookup "status" = none) ∧
    tareaSchemaFields.contains "status" = false ∧
    crearTarea (.str "application/json") sampleCreateBody 5 =
      .created (modeloACrear sampleCreateBody 5) := by
  refine ⟨fun body now => rfl, by decide, by decide⟩

/-! ### C3: the invalid-description branch of create -/

/-- C3 (code bug): the claim says every error kind is rendered as a
400-level response and in particular a truthy non-string `description`
on create produces the InvalidAttribute response; but the rejection
branch of `crearTarea` interpolates the identifier `description`, which
is unbound in that function, so the branch raises a ReferenceError
instead of sending the response. -/
theorem c3_create_reference_error_bug :
    crearTarea (.str "application/json") createBodyNumDesc 5 = .referenceError ∧
    validContentTypeHeader (.str "application/json") = true ∧
    truthy (.num 123) = true ∧ isStringV (.num 123) = false := by decide

/-! ### C7: update of a non-existent id -/

/-- C7: an update request that passes the header and description checks
and is addressed to an id that does not resolve in the collaborator
yields ResourceNotFound (whatever the requested status, even an invalid
one, since the fetch precedes the status checks), stores nothing, and
never invokes the collaborator update operation. -/
theorem c7_update_not_found (req : UpdateRequest) (c : Collab) (now : Int)
    (hct : validContentTypeHeader req.contentType = true)
    (hac : validAcceptHeader req.accept = true)
    (hd : truthy req.bodyDescription = true → isStringV req.bodyDescription = true)
    (hst : c.stored = none) :
    actualizarTarea req c now = ⟨.resourceNotFound, none, false⟩ := by
  have hdF : ¬(truthy req.bodyDescription = true ∧ isStringV req.bodyDescription = false) := by
    rintro ⟨a, b⟩
    rw [hd a] at b
    cases b
  unfold actualizarTarea
  rw [hst]
  simp [hct, hac, hdF]

/-- C7 witness: a concrete update of a missing id, with an invalid
requested status in the body, still yields exactly ResourceNotFound. -/
theorem c7_update_not_found_witness :
    actualizarTarea ⟨.str "application/json", .undef, .undef, .str "FOO", "9"⟩
      ⟨none, false, false⟩ 5 = ⟨.resourceNotFound, none, false⟩ :=
  c7_update_not_found ⟨.str "application/json", .undef, .undef, .str "FOO", "9"⟩
    ⟨none, false, false⟩ 5 (by decide) (by decide) (fun h => by cases h) rfl

/-! ### C1: updates out of a terminal state -/

/-- C1 counterexample: the claim says a task in a terminal state rejects
every update to a different status, in particular a requested status of
PENDIENTE; but `actualizarTarea` lets a TERMINADO task be set back to
PENDIENTE and persists the change: only transitions between the two
terminal states are guarded. -/
theorem c1_claim_counterexample :
    actualizarTarea ⟨.str "application/json", .str "application/json", .undef,
        .str "PENDIENTE", "7"⟩
      ⟨some sampleTerminado, false, false⟩ 5 =
    ⟨.success ⟨some "7", .str "PENDIENTE", .str "old", 5, sampleRest⟩,
     some ⟨none, .str "PENDIENTE", .str "old", 5, sampleRest⟩, true⟩ := by decide

/-- C1 (amended): for a task in a terminal state, a requested status
equal to the other terminal state is rejected with IllegalTransition,
nothing is persisted and the collaborator update is not invoked; a
requested status of PENDIENTE, however, is accepted and returns the task
to PENDIENTE (shown by the counterexample). -/
theorem c1_terminal_cross_amended (req : UpdateRequest) (c : Collab) (now : Int)
    (t0 : TaskRecord)
    (hct : validContentTypeHeader req.contentType = true)
    (hac : validAcceptHeader req.accept = true)
    (hd : truthy req.bodyDescription = true → isStringV req.bodyDescription = true)
    (hst : c.stored = some t0)
    (hcross : (t0.status = .str "TERMINADO" ∧ req.bodyStatus = .str "CANCELADO") ∨
      (t0.status = .str "CANCELADO" ∧ req.bodyStatus = .str "TERMINADO")) :
    actualizarTarea req c now = ⟨.illegalTransition, c.stored, false⟩ := by
  have hdF : ¬(truthy req.bodyDescription = true ∧ isStringV req.bodyDescription = false) := by
    rintro ⟨a, b⟩
    rw [hd a] at b
    cases b
  unfold actualizarTarea
  rw [hst]
  rcases hcross with ⟨h1, h2⟩ | ⟨h1, h2⟩ <;>
    simp [hct, hac, hdF, statusStep, truthy, validStatuses, h1, h2, StatusErr.toOutcome] <;>
    exact hd

/-- C1 witness: a concrete CANCELADO task updated to TERMINADO is
rejected with IllegalTransition and nothing changes. -/
theorem c1_terminal_cross_witness :
    actualizarTarea ⟨.str "application/json", .str "*/*", .undef, .str "TERMINADO", "8"⟩
      ⟨some ⟨some "8", .str "CANCELADO", .str "old", 1, sampleRest⟩, false, false⟩ 5 =
    ⟨.illegalTransition, some ⟨some "8", .str "CANCELADO", .str "old", 1, sampleRest⟩, false⟩ :=
  c1_terminal_cross_amended
    ⟨.str "application/json", .str "*/*", .undef, .str "TERMINADO", "8"⟩
    ⟨some ⟨some "8", .str "CANCELADO", .str "old", 1, sampleRest⟩, false, false⟩ 5
    ⟨some "8", .str "CANCELADO", .str "old", 1, sampleRest⟩
    (by decide) (by decide) (fun h => by cases h) rfl (Or.inr ⟨rfl, rfl⟩)

/-! ### C8: update to the current status -/

/-- C8: an update that requests the task's own current status, for any
of the three enumerated values, succeeds: the persisted status is
unchanged and the date field advances to the time of the update
(the description is replaced only when the body carries a truthy one). -/
theorem c8_idempotent_status_update (req : UpdateRequest) (c : Collab) (now : Int)
    (t0 : TaskRecord) (s : String)
    (hct : validContentTypeHeader req.contentType = true)
    (hac : validAcceptHeader req.accept = true)
    (hd : truthy req.bodyDescription = true → isStringV req.bodyDescription = true)
    (hst : c.stored = some t0)
    (hs : t0.status = .str s)
    (hs3 : s = "PENDIENTE" ∨ s = "TERMINADO" ∨ s = "CANCELADO")
    (hreq : req.bodyStatus = .str s)
    (hu : c.updateFails = false) (hr : c.rereadFails = false) :
    actualizarTarea req c now =
      ⟨.success ⟨some req.idTarea, .str s,
          if truthy req.bodyDescription then req.bodyDescription else t0.description,
          now, t0.rest⟩,
       some ⟨none, .str s,
          if truthy req.bodyDescription then req.bodyDescription else t0.description,
          now, t0.rest⟩, true⟩ := by
  unfold actualizarTarea
  rw [hst]
  by_cases hb : truthy req.bodyDescription = true
  · have hds : isStringV req.bodyDescription = true := hd hb
    rcases hs3 with rfl | rfl | rfl <;>
      simp [hct, hac, hds, hu, hr, hreq, hs, hb, statusStep, validStatuses]
  · rcases hs3 with rfl | rfl | rfl <;>
      simp [hct, hac, hu, hr, hreq, hs, hb, statusStep, validStatuses]

/-- C8 witness: a TERMINADO task updated to TERMINADO succeeds, keeps
status TERMINADO and advances the date. -/
theorem c8_idempotent_status_witness :
    actualizarTarea ⟨.str "application/json", .undef, .undef, .str "TERMINADO", "7"⟩
      ⟨some sampleTerminado, false, false⟩ 5 =
    ⟨.success ⟨some "7", .str "TERMINADO", .str "old", 5, sampleRest⟩,
     some ⟨none, .str "TERMINADO", .str "old", 5, sampleRest⟩, true⟩ := by
  have h := c8_idempotent_status_update
    ⟨.str "application/json", .undef, .undef, .str "TERMINADO", "7"⟩
    ⟨some sampleTerminado, false, false⟩ 5 sampleTerminado "TERMINADO"
    (by decide) (by decide) (fun hx => by cases hx) rfl rfl
    (Or.inr (Or.inl rfl)) rfl rfl rfl
  exact h.trans (by decide)

/-! ### C4: persistence failures during update -/

/-- C4 counterexample: the claim says that on a persistence failure the
persisted record is exactly as it was before the request, including when
the write succeeded and only the re-read failed; but in that case the
written record stays persisted: here the response reports a persistence
failure while the stored task has changed. -/
theorem c4_claim_counterexample :
    actualizarTarea ⟨.str "application/json", .undef, .undef, .str "TERMINADO", "3"⟩
      ⟨some samplePendiente, false, true⟩ 5 =
    ⟨.persistenceFailure, some ⟨none, .str "TERMINADO", .str "old", 5, sampleRest⟩, true⟩ ∧
    some ⟨none, .str "TERMINADO", .str "old", 5, sampleRest⟩ ≠ some samplePendiente := by
  decide

/-- C4 (amended): a persistence failure on the write or on the re-read
yields PersistenceFailure; when the write itself fails the stored record
is unchanged, but when the write succeeds and only the re-read fails the
mutated record remains persisted: there is no rollback. -/
theorem c4_persistence_failure_amended (req : UpdateRequest) (c : Collab) (now : Int)
    (t0 t1 : TaskRecord)
    (hct : validContentTypeHeader req.contentType = true)
    (hac : validAcceptHeader req.accept = true)
    (hd : truthy req.bodyDescription = true → isStringV req.bodyDescription = true)
    (hst : c.stored = some t0)
    (hok : statusStep { t0 with id := none } req.bodyStatus = .ok t1) :
    (c.updateFails = true →
      actualizarTarea req c now = ⟨.persistenceFailure, c.stored, true⟩) ∧
    (c.updateFails = false → c.rereadFails = true →
      actualizarTarea req c now =
        ⟨.persistenceFailure,
         some { (if truthy req.bodyDescription then
             { t1 with description := req.bodyDescription } else t1) with date := now },
         true⟩) := by
  have hdF : ¬(truthy req.bodyDescription = true ∧ isStringV req.bodyDescription = false) := by
    rintro ⟨a, b⟩
    rw [hd a] at b
    cases b
  constructor
  · intro hu
    unfold actualizarTarea
    rw [hst]
    simp [hct, hac, hdF, hok, hu]
  · intro hu hr
    unfold actualizarTarea
    rw [hst]
    by_cases hb : truthy req.bodyDescription = true
    · have hds : isStringV req.bodyDescription = true := hd hb
      simp [hct, hac, hds, hok, hu, hr, hb]
    · simp [hct, hac, hok, hu, hr, hb]

/-- C4 witness: a concrete update whose write succeeds and whose re-read
fails reports PersistenceFailure with the mutated record persisted. -/
theorem c4_persistence_failure_witness :
    actualizarTarea ⟨.str "application/json", .undef, .undef, .str "CANCELADO", "3"⟩
      ⟨some samplePendiente, false, true⟩ 5 =
    ⟨.persistenceFailure, some ⟨none, .str "CANCELADO", .str "old", 5, sampleRest⟩, true⟩ := by
  have h := (c4_persistence_failure_amended
    ⟨.str "application/json", .undef, .undef, .str "CANCELADO", "3"⟩
    ⟨some samplePendiente, false, true⟩ 5 samplePendiente
    ⟨none, .str "CANCELADO", .str "old", 1, sampleRest⟩
    (by decide) (by decide) (fun hx => by cases hx) rfl rfl).2 rfl rfl
  exact h.trans (by decide)

/-! ### C6: shape check on the description attribute -/

/-- C6 counterexample: the claim says every non-text `description`,
including falsy values such as 0, is rejected with InvalidAttribute; but
the guard only fires for truthy values, so an update whose body carries
the description 0 is not rejected: it succeeds, with the 0 not applied. -/
theorem c6_claim_counterexample :
    actualizarTarea ⟨.str "application/json", .undef, .num 0, .undef, "3"⟩
      ⟨some samplePendiente, false, false⟩ 5 =
    ⟨.success ⟨some "3", .str "PENDIENTE", .str "old", 5, sampleRest⟩,
     some ⟨none, .str "PENDIENTE", .str "old", 5, sampleRest⟩, true⟩ ∧
    isStringV (.num 0) = false := by decide

/-- C6 (amended): only a truthy non-text description is rejected: update
rejects it with InvalidAttribute before touching the store, and create
takes its invalid-attribute branch, which faults with the ReferenceError
defect instead of rendering InvalidAttribute; a falsy description is
never rejected as InvalidAttribute; and an absent description leaves the
stored description unchanged on every path. -/
theorem c6_description_shape_amended :
    (∀ req c now, truthy req.bodyDescription = true →
      isStringV req.bodyDescription = false →
      validContentTypeHeader req.contentType = true →
      validAcceptHeader req.accept = true →
      actualizarTarea req c now = ⟨.invalidAttribute, c.stored, false⟩) ∧
    (∀ ct body now, truthy body.description = true →
      isStringV body.description = false →
      validContentTypeHeader ct = true →
      crearTarea ct body now = .referenceError) ∧
    (∀ req c now, truthy req.bodyDescription = false →
      (actualizarTarea req c now).outcome ≠ .invalidAttribute) ∧
    (∀ req c now t0 w, req.bodyDescription = .undef → c.stored = some t0 →
      (actualizarTarea req c now).stored = some w →
      w.description = t0.description) := by
  refine ⟨?_, ?_, ?_, ?_⟩
  · intro req c now h1 h2 hct hac
    unfold actualizarTarea
    simp [hct, hac, h1, h2]
  · intro ct body now h1 h2 hct
    unfold crearTarea
    simp [hct, h1, h2]
  · intro req c now hf
    unfold actualizarTarea
    by_cases h1 : validContentTypeHeader req.contentType = true
    case neg => simp [h1]
    by_cases h2 : validAcceptHeader req.accept = true
    case neg => simp [h1, h2]
    have h3F : ¬(truthy req.bodyDescription = true ∧ isStringV req.bodyDescription = false) := by
      simp [hf]
    cases hcs : c.stored with
    | none => simp [h1, h2, h3F]
    | some t0 =>
      cases hm : statusStep { t0 with id := none } req.bodyStatus with
      | error e => cases e <;> simp [h1, h2, h3F, hm, StatusErr.toOutcome]
      | ok t1 =>
        by_cases hu : c.updateFails = true
        case pos => simp [h1, h2, h3F, hm, hu]
        by_cases hr : c.rereadFails = true
        case pos => simp [h1, h2, h3F, hm, hu, hr]
        simp [h1, h2, h3F, hm, hu, hr]
  · intro req c now t0 w hun hst hw
    rcases actualizarTarea_stored_cases req c now with hc | ⟨t0x, t1, hcs, hm, hmut⟩
    · rw [hc, hst, Option.some_inj] at hw
      rw [← hw]
    · rw [hst] at hcs
      injection hcs with hx
      subst hx
      rw [hmut, Option.some_inj] at hw
      rw [← hw]
      rcases statusStep_ok_cases _ _ _ hm with h | h <;>
        simp [mutRecord, h, hun, truthy]

/-- C6 witness: a concrete update carrying the truthy non-string
description value true is rejected with InvalidAttribute, with nothing
stored and the collaborator update not invoked. -/
theorem c6_description_shape_witness :
    actualizarTarea ⟨.str "application/json", .undef, .bool true, .undef, "3"⟩
      ⟨some samplePendiente, false, false⟩ 5 =
    ⟨.invalidAttribute, some samplePendiente, false⟩ :=
  c6_description_shape_amended.1
    ⟨.str "application/json", .undef, .bool true, .undef, "3"⟩
    ⟨some samplePendiente, false, false⟩ 5 rfl rfl (by decide) (by decide)

/-! ### C10: frame of a successful update -/

/-- C10: a successful update writes the fetched record with only status,
description and date possibly changed and the id field removed: the
returned record carries the addressed id, every other attribute is
unchanged, the date is stamped to the request time, and status and
description are each either the fetched value or the requested one. -/
theorem c10_update_frame (req : UpdateRequest) (c : Collab) (now : Int)
    (t0 r : TaskRecord)
    (hst : c.stored = some t0)
    (hsucc : (actualizarTarea req c now).outcome = .success r) :
    ∃ w, actualizarTarea req c now = ⟨.success r, some w, true⟩ ∧
      r = { w with id := some req.idTarea } ∧
      w.id = none ∧ w.rest = t0.rest ∧ w.date = now ∧
      (w.status = t0.status ∨ w.status = req.bodyStatus) ∧
      (w.description = t0.description ∨ w.description = req.bodyDescription) := by
  obtain ⟨t0x, t1, hcs, hm, hr, heq⟩ := actualizarTarea_success_cases req c now r hsucc
  rw [hst] at hcs
  injection hcs with hx
  subst hx
  refine ⟨mutRecord req t1 now, heq, hr, ?_, ?_, ?_, ?_, ?_⟩
  all_goals
    rcases statusStep_ok_cases _ _ _ hm with h | h <;>
      by_cases hb : truthy req.bodyDescription = true <;>
        simp [mutRecord, h, hb]

/-- C10 witness: a concrete successful update changing status and
description keeps the id and the opaque attributes and stamps the date. -/
theorem c10_update_frame_witness :
    ∃ w, actualizarTarea ⟨.str "application/json", .undef, .str "nueva",
        .str "TERMINADO", "3"⟩ ⟨some samplePendiente, false, false⟩ 5 =
      ⟨.success ⟨some "3", .str "TERMINADO", .str "nueva", 5, sampleRest⟩, some w, true⟩ ∧
      (⟨some "3", .str "TERMINADO", .str "nueva", 5, sampleRest⟩ : TaskRecord) =
        { w with id := some "3" } ∧
      w.id = none ∧ w.rest = samplePendiente.rest ∧ w.date = 5 ∧
      (w.status = samplePendiente.status ∨ w.status = .str "TERMINADO") ∧
      (w.description = samplePendiente.description ∨ w.description = .str "nueva") :=
  c10_update_frame ⟨.str "application/json", .undef, .str "nueva", .str "TERMINADO", "3"⟩
    ⟨some samplePendiente, false, false⟩ 5 samplePendiente
    ⟨some "3", .str "TERMINADO", .str "nueva", 5, sampleRest⟩ rfl (by decide)
